import Mathlib

/-!
Shallow embedding of the selection-management subsystem of
`src/Gui/Selection/Selection.cpp` (class `SelectionSingleton` and the
`SelectionGateFilterExternal` gate).

The document/object graph, the element resolver (`App::GeoFeature::resolveElement`),
`TreeWidget::checkTopParent` and the application-wide document lookup are external
collaborators of this component; they are modelled as an abstract environment
record `Env` whose fields are the exact queries the source code performs.
Observers attached to the selection-changed signals (the per-object view-provider
dispatch, the protected `Notify` virtual and every slot connected to
`signalSelectionChanged`) are modelled as one ordered list of state-transformer
functions, since the source delivers each message to them in a fixed order.

Machine floats (the 3D pick coordinates) are carried as `Int`: the source never
computes with them in this component, it only stores and forwards them.
-/

namespace FreeCADSel

/-- `Gui::ResolveMode` from the selection headers: the four canonicalization
tiers.  The source compares them with the usual enum order
`NoResolve < OldStyleElement < NewStyleElement < FollowLink`. -/
inductive ResolveMode where
  | NoResolve
  | OldStyleElement
  | NewStyleElement
  | FollowLink
deriving DecidableEq, Repr

/-- `resolve > ResolveMode::OldStyleElement` in the source's enum order. -/
def ResolveMode.gtOldStyle : ResolveMode → Bool
  | .NewStyleElement => true
  | .FollowLink => true
  | _ => false

/-- The message kinds of `SelectionChanges::MsgType` that this translation unit
uses. -/
inductive MsgType where
  | AddSelection
  | RmvSelection
  | SetSelection
  | ClrSelection
  | SetPreselect
  | RmvPreselect
  | SetPreselectSignal
  | RmvPreselectSignal
  | PickedListChanged
  | ShowSelection
  | HideSelection
deriving DecidableEq, Repr

/-- `SelectionChanges::MsgSource` (origin tag of a message); the code in this
translation unit only ever distinguishes `Internal` from everything else. -/
inductive MsgSource where
  | Any
  | Internal
  | TreeView
deriving DecidableEq, Repr

/-- A document object of the external object graph.  Identity (pointer equality
in the C++) is modelled as equality of this record; `doc`/`name` are
`getDocument()->getName()` / `getNameInDocument()`, `typeName` is
`getTypeId().getName()` and `removeStatus` is `testStatus(App::ObjectStatus::Remove)`. -/
structure DocObj where
  doc : String
  name : String
  typeName : String
  removeStatus : Bool
deriving DecidableEq, Repr

/-- `SelectionChanges`: the event payload.  The `Object` sub-object used by the
preselection filter is the (`pDocName`, `pObjectName`, `pSubName`) triple. -/
structure SelectionChanges where
  msgType : MsgType
  pDocName : String
  pObjectName : String
  pSubName : String
  pTypeName : String
  x : Int
  y : Int
  z : Int
deriving DecidableEq, Repr

/-- A default-constructed `SelectionChanges` (type `ClrSelection`, empty names):
the sentinel stored in `CurrentPreselection` when no preselection exists. -/
def emptyMsg : SelectionChanges :=
  { msgType := .ClrSelection, pDocName := "", pObjectName := "", pSubName := "",
    pTypeName := "", x := 0, y := 0, z := 0 }

/-- One entry of `_SelList` / `_PickedList` (`SelectionSingleton::_SelObj`).
`oldName`/`newName` are the `elementName` pair filled by the resolver; `logged`
is the macro-echo flag set by `_SelObj::log`. -/
structure SelObjT where
  DocName : String
  FeatName : String
  SubName : String
  TypeName : String
  pObject : DocObj
  pResolvedObject : DocObj
  oldName : String
  newName : String
  x : Int
  y : Int
  z : Int
  logged : Bool
deriving DecidableEq, Repr

/-- Result of `App::GeoFeature::resolveElement`: the resolved terminal object,
the old-style / new-style element-name pair, and the offset of the element name
inside the queried sub-path (the `element` out-pointer; `none` models a null
out-pointer). -/
structure ResolveResult where
  resolved : DocObj
  oldName : String
  newName : String
  element : Option Nat
deriving DecidableEq, Repr

/-- The external collaborators consumed by `Selection.cpp`, one field per
query the source performs.  `selectionStackSize` is the static stack bound
`selStackPush` reads from the user preferences (default 100). -/
structure Env where
  getDocument : String → Option String
  activeDocument : Option String
  getObject : String → String → Option DocObj
  checkTopParent : DocObj → String → DocObj × String
  resolveElement : DocObj → Option String → Option ResolveResult
  isAttached : DocObj → Bool
  getLinkedObject : DocObj → DocObj
  selectionStackSize : Nat

/-- `SelectionSingleton::getDocument`: empty or null name means the active
document, otherwise a lookup by name. -/
def Env.lookupDoc (env : Env) (pDocName : Option String) : Option String :=
  match pDocName with
  | some d => if d = "" then env.activeDocument else env.getDocument d
  | none => env.activeDocument

/-- `boost::starts_with(s, pre)`. -/
def boostStartsWith (s pre : String) : Bool :=
  decide (pre.toList <+: s.toList)

/-- An active selection gate: the `allow(document, object, subelement)`
predicate.  The arguments may be null in the C++ (`Option` here). -/
def Gate := Option String → Option DocObj → Option String → Bool

/-- A snapshot entry of the selection stack: `SelStackItem =
std::set<App::SubObjectT>` of (document, object, sub-path) triples.  We keep
the set as a duplicate-free list; `stackItemEqb` below is the `std::set`
equality (same elements). -/
abbrev SelTriple := String × String × String

abbrev SelStackItem := List SelTriple

/-- `std::set::emplace`: add a triple unless already present. -/
def stackItemInsert (it : SelStackItem) (t : SelTriple) : SelStackItem :=
  if t ∈ it then it else it ++ [t]

/-- `operator==` of `std::set`: both contain the same triples. -/
def stackItemEqb (a b : SelStackItem) : Bool :=
  decide (a ⊆ b ∧ b ⊆ a)

/-- The mutable state of `SelectionSingleton`: the selection list, the picked
list, the notification queue with its `Notifying` flag, the preselection slot
(`DocName`/`FeatName`/`SubName`, hover point `hx`/`hy`/`hz`, and the cached
`CurrentPreselection` message), the two history stacks, the active gate with
its resolve mode, and the command-log suppression counter. -/
structure GState where
  SelList : List SelObjT
  PickedList : List SelObjT
  NotificationQueue : List SelectionChanges
  Notifying : Bool
  DocName : String
  FeatName : String
  SubName : String
  hx : Int
  hy : Int
  hz : Int
  CurrentPreselection : SelectionChanges
  SelStackBack : List SelStackItem
  SelStackForward : List SelStackItem
  ActiveGate : Option Gate
  gateResolve : ResolveMode
  logDisabled : Nat

attribute [ext] GState

/-- An observer of the selection-changed signals: receives the delivered
message and may transform the whole selection state (reentrant calls back into
the façade operations are state transformations, and while a delivery pass is
running they can only append to the notification queue). -/
def Observer := SelectionChanges → GState → GState

/-- One ghost trace record: message delivered to observer number `i`. -/
abbrev Delivery := SelectionChanges × Nat

/-- `SelectionSingleton::checkSelection`.  Returns `none` for the C++ return
value `-1` (document, object or sub-element does not resolve, or the object is
marked for removal), `some (true, sel)` for return value `1` (already selected)
and `some (false, sel)` for `0` (not selected), with `sel` the fully resolved
candidate entry. -/
def checkSelection (env : Env) (selList : List SelObjT)
    (pDocName pObjectName pSubName : Option String) (resolve : ResolveMode) :
    Option (Bool × SelObjT) :=
  match env.lookupDoc pDocName with
  | none => none
  | some docName =>
    match pObjectName.bind (env.getObject docName) with
    | none => none
    | some obj0 =>
      if obj0.removeStatus then none
      else
        let sub0 := pSubName.getD ""
        let op :=
          if resolve = ResolveMode.NoResolve then env.checkTopParent obj0 sub0 else (obj0, sub0)
        let obj := op.1
        let sub1 := op.2
        let pSub : Option String := if sub1 = "" then none else some sub1
        match env.resolveElement obj pSub with
        | none => none
        | some res =>
          if res.resolved.removeStatus then none
          else
            -- the prefix before the element name, and the sub-path rewritten to
            -- new-style when a new-style name is available
            let ps :=
              match pSub, res.element with
              | some s, some off =>
                let pre := String.mk (s.toList.take off)
                if res.newName ≠ "" then (pre, pre ++ res.newName) else (pre, s)
              | _, _ => ("", sub1)
            let pre := ps.1
            let sub2 := ps.2
            let sel : SelObjT :=
              { DocName := docName, FeatName := obj.name, SubName := sub2,
                TypeName := obj.typeName, pObject := obj, pResolvedObject := res.resolved,
                oldName := res.oldName, newName := res.newName,
                x := 0, y := 0, z := 0, logged := false }
            let found1 := selList.any fun s =>
              decide (s.DocName = docName) && decide (s.FeatName = sel.FeatName) &&
                (decide (s.SubName = sub2) ||
                  (resolve.gtOldStyle && boostStartsWith s.SubName pre))
            let found2 :=
              decide (resolve = ResolveMode.OldStyleElement) && selList.any fun s =>
                decide (s.pResolvedObject = res.resolved) &&
                  (decide (sub2 = "") ||
                    (if s.newName ≠ "" then decide (s.newName = res.newName)
                     else decide (s.SubName = res.oldName)))
            if found1 || found2 then some (true, sel) else some (false, sel)

/-- `SelectionSingleton::isSelected(pDocName, pObjectName, pSubName, resolve)`:
`checkSelection(...) > 0` against the given selection list. -/
def isSelectedB (env : Env) (selList : List SelObjT) (d o s : String)
    (resolve : ResolveMode) : Bool :=
  match checkSelection env selList (some d) (some o) (some s) resolve with
  | some (true, _) => true
  | _ => false

/-- `SelectionSingleton::getObjectOfType` on a selection entry.  `typeOk` is
the `isDerivedFrom(typeId)` test (for `App::DocumentObject::getClassTypeId()`
it is constantly true).  Returns the chosen object together with the
sub-element string written through the out-pointer. -/
def getObjectOfType (env : Env) (sel : SelObjT) (typeOk : DocObj → Bool)
    (resolve : ResolveMode) : Option (DocObj × String) :=
  if ¬ env.isAttached sel.pObject then none
  else
    let os :=
      if resolve ≠ ResolveMode.NoResolve then
        (sel.pResolvedObject,
          if resolve = ResolveMode.NewStyleElement ∧ sel.newName ≠ "" then sel.newName
          else sel.oldName)
      else (sel.pObject, sel.SubName)
    if typeOk os.1 ∨ (resolve = ResolveMode.FollowLink ∧ typeOk (env.getLinkedObject os.1))
    then some os
    else none

/-- The per-message filter of `SelectionSingleton::notify`'s delivery loop:
`AddSelection` is forwarded only if the subject is still selected,
`RmvSelection` only if it no longer is, `SetPreselect` only if it matches the
current preselection, `RmvPreselect` only if the preselection slot holds the
cleared sentinel; every other kind is always forwarded. -/
def notifyFilter (env : Env) (st : GState) (msg : SelectionChanges) : Bool :=
  match msg.msgType with
  | .AddSelection =>
    isSelectedB env st.SelList msg.pDocName msg.pObjectName msg.pSubName ResolveMode.NoResolve
  | .RmvSelection =>
    ! isSelectedB env st.SelList msg.pDocName msg.pObjectName msg.pSubName ResolveMode.NoResolve
  | .SetPreselect =>
    decide (st.CurrentPreselection.msgType = MsgType.SetPreselect) &&
      decide ((st.CurrentPreselection.pDocName, st.CurrentPreselection.pObjectName,
          st.CurrentPreselection.pSubName)
        = (msg.pDocName, msg.pObjectName, msg.pSubName))
  | .RmvPreselect => decide (st.CurrentPreselection.msgType = MsgType.ClrSelection)
  | _ => true

/-- Deliver one message to every observer in order (the view-provider dispatch,
the `Notify` virtual and the `signalSelectionChanged` slots), threading the
state. -/
def deliverMsg (obs : List Observer) (msg : SelectionChanges) (st : GState) : GState :=
  obs.foldl (fun s ob => ob msg s) st

/-- Ghost trace of one full delivery: `msg` handed to observers `0, 1, ...`. -/
def blockTrace (msg : SelectionChanges) (n : Nat) : List Delivery :=
  (List.range n).map fun i => (msg, i)

/-- The `while (!NotificationQueue.empty())` drain loop of
`SelectionSingleton::notify`, with explicit fuel (the C++ loop simply runs
until the queue is empty).  Each iteration reads the front message, filters it
against the current state, delivers it to all observers if the filter passes,
then pops the front. -/
def notifyLoop (env : Env) (obs : List Observer) : Nat → GState → GState × List Delivery
  | 0, st => (st, [])
  | fuel + 1, st =>
    match st.NotificationQueue with
    | [] => (st, [])
    | msg :: _ =>
      let doNotify := notifyFilter env st msg
      let st1 := if doNotify then deliverMsg obs msg st else st
      let st2 := { st1 with NotificationQueue := st1.NotificationQueue.tail }
      let r := notifyLoop env obs fuel st2
      (r.1, (if doNotify then blockTrace msg obs.length else []) ++ r.2)

/-- `SelectionSingleton::notify`: while a delivery pass is running the message
is only appended to the pending queue; otherwise the `Notifying` flag is set,
the message is appended and the queue is drained, and the flag is reset when
the pass ends (`Base::FlagToggler`). -/
def notify (env : Env) (obs : List Observer) (fuel : Nat) (chng : SelectionChanges)
    (st : GState) : GState × List Delivery :=
  if st.Notifying then
    ({ st with NotificationQueue := st.NotificationQueue ++ [chng] }, [])
  else
    let st1 := { st with Notifying := true, NotificationQueue := st.NotificationQueue ++ [chng] }
    let r := notifyLoop env obs fuel st1
    ({ r.1 with Notifying := false }, r.2)

/-- `SelectionChanges(SelectionChanges::PickedListChanged)`. -/
def pickedChangedMsg : SelectionChanges := { emptyMsg with msgType := .PickedListChanged }

/-- `SelectionSingleton::rmvPreselect(bool signal)`: nothing happens when no
preselection is stored; with `signal` only a `RmvPreselectSignal` message is
published; otherwise the preselection slot is reset to the sentinel and a
`RmvPreselect` message is published. -/
def rmvPreselect (env : Env) (obs : List Observer) (fuel : Nat) (signal : Bool)
    (st : GState) : GState × List Delivery :=
  if st.DocName = "" then (st, [])
  else if signal then
    notify env obs fuel
      { msgType := .RmvPreselectSignal, pDocName := st.DocName, pObjectName := st.FeatName,
        pSubName := st.SubName, pTypeName := "", x := 0, y := 0, z := 0 } st
  else
    let chng : SelectionChanges :=
      { msgType := .RmvPreselect, pDocName := st.DocName, pObjectName := st.FeatName,
        pSubName := st.SubName, pTypeName := "", x := 0, y := 0, z := 0 }
    let st1 :=
      { st with CurrentPreselection := emptyMsg, DocName := "", FeatName := "", SubName := "",
                hx := 0, hy := 0, hz := 0 }
    -- restoring the override cursor when a gate is active is external UI
    notify env obs fuel chng st1

/-- `SelectionSingleton::addSelection(pDocName, pObjectName, pSubName, x, y, z,
pickedList, clearPreselect)`.  Returns the C++ `bool` result together with the
final state and the ghost delivery trace. -/
def addSelection (env : Env) (obs : List Observer) (fuel : Nat)
    (pDocName pObjectName pSubName : Option String) (x y z : Int)
    (pickedList : Option (List SelObjT)) (clearPreselect : Bool) (st : GState) :
    Bool × GState × List Delivery :=
  let r0 :=
    match pickedList with
    | some pl => notify env obs fuel pickedChangedMsg { st with PickedList := pl }
    | none => (st, [])
  let st0 := r0.1
  match checkSelection env st0.SelList pDocName pObjectName pSubName ResolveMode.NoResolve with
  | none => (false, st0, r0.2)
  | some (true, _) => (false, st0, r0.2)
  | some (false, temp0) =>
    let temp1 := { temp0 with x := x, y := y, z := z }
    let gateOk :=
      match st0.ActiveGate with
      | none => true
      | some gate =>
        -- the gate is queried with the gate's own resolve mode; the type filter
        -- is the base class `App::DocumentObject`, which every object satisfies
        match getObjectOfType env temp1 (fun _ => true) st0.gateResolve with
        | some os => gate (some os.1.doc) (some os.1) (some os.2)
        | none => gate (some temp1.DocName) none none
    if gateOk then
      -- `temp.log(false, clearPreselect)` writes a macro line (external) and
      -- marks the entry as logged
      let temp2 := if st0.logDisabled = 0 then { temp1 with logged := true } else temp1
      let st1 := { st0 with SelList := st0.SelList ++ [temp2], SelStackForward := [] }
      let r1 := if clearPreselect then rmvPreselect env obs fuel false st1 else (st1, [])
      let chng : SelectionChanges :=
        { msgType := .AddSelection, pDocName := temp2.DocName, pObjectName := temp2.FeatName,
          pSubName := temp2.SubName, pTypeName := temp2.TypeName, x := x, y := y, z := z }
      let r2 := notify env obs fuel chng r1.1
      -- getMainWindow()->updateActions() is external UI
      let r3 := rmvPreselect env obs fuel true r2.1
      -- re-check after notification (observers may remove or clear the
      -- selection inside a signal handler); the declaration's default resolve
      -- mode is OldStyleElement
      (isSelectedB env r3.1.SelList temp2.DocName temp2.FeatName temp2.SubName
          ResolveMode.OldStyleElement,
        r3.1, r0.2 ++ r1.2 ++ r2.2 ++ r3.2)
    else
      -- vetoed: status message, forbidden cursor and beep are external UI;
      -- the gate's `notAllowedReason` is cleared (not part of the state here)
      (false, st0, r0.2)

/-- The per-entry removal test of `SelectionSingleton::rmvSelection`'s loop:
document and object names must match, and a non-empty requested sub-path must
be a prefix of the stored one whose end position in the stored string (index
`length - 1`) holds a `'.'`, unless the lengths are equal. -/
def rmvMatches (temp s : SelObjT) : Bool :=
  decide (s.DocName = temp.DocName) && decide (s.FeatName = temp.FeatName) &&
    (decide (temp.SubName = "") ||
      (boostStartsWith s.SubName temp.SubName &&
        (decide (s.SubName.length = temp.SubName.length) ||
          decide (s.SubName.toList.getD (temp.SubName.length - 1) ' ' = '.'))))

/-- `SelectionSingleton::rmvSelection(pDocName, pObjectName, pSubName,
pickedList)`: every matching entry is removed, the removals are collected and
notified as one ordered batch after the erase loop. -/
def rmvSelection (env : Env) (obs : List Observer) (fuel : Nat)
    (pDocName pObjectName pSubName : Option String)
    (pickedList : Option (List SelObjT)) (st : GState) : GState × List Delivery :=
  let r0 :=
    match pickedList with
    | some pl => notify env obs fuel pickedChangedMsg { st with PickedList := pl }
    | none => (st, [])
  let st0 := r0.1
  match pDocName with
  | none => (st0, r0.2)
  | some _ =>
    match checkSelection env st0.SelList pDocName pObjectName pSubName ResolveMode.NoResolve with
    | none => (st0, r0.2)
    | some (_, temp) =>
      -- each removed entry is macro-logged (`It->log(true)`, external)
      let removed := st0.SelList.filter fun s => rmvMatches temp s
      let st1 := { st0 with SelList := st0.SelList.filter fun s => ! rmvMatches temp s }
      let changes := removed.map fun s =>
        ({ msgType := .RmvSelection, pDocName := s.DocName, pObjectName := s.FeatName,
           pSubName := s.SubName, pTypeName := s.TypeName, x := 0, y := 0, z := 0 }
          : SelectionChanges)
      let r1 := changes.foldl
        (fun (acc : GState × List Delivery) c =>
          let r := notify env obs fuel c acc.1
          (r.1, acc.2 ++ r.2))
        (st1, [])
      (r1.1, r0.2 ++ r1.2)

/-- The accepting tail of `SelectionSingleton::setPreselect` (after the
duplicate check and the gate check): store the new target, publish the
`SetPreselect` (or `SetPreselectSignal`) message, and for the internal-echo
variant publish the committed `SetPreselect` companion afterwards; the result
is 1 unless the preselection was removed again during notification. -/
def setPreselectCommit (env : Env) (obs : List Observer) (fuel : Nat)
    (docN objN subN : String) (x y z : Int) (signal : MsgSource) (st : GState)
    (tr0 : List Delivery) : Int × GState × List Delivery :=
  let st1 := { st with DocName := docN, FeatName := objN, SubName := subN,
                       hx := x, hy := y, hz := z }
  let chng : SelectionChanges :=
    { msgType := if signal = MsgSource.Internal then .SetPreselectSignal else .SetPreselect,
      pDocName := docN, pObjectName := objN, pSubName := subN, pTypeName := "",
      x := x, y := y, z := z }
  let st2 :=
    if chng.msgType = MsgType.SetPreselect then { st1 with CurrentPreselection := chng } else st1
  let r1 := notify env obs fuel chng st2
  let r2 :=
    if signal = MsgSource.Internal ∧ r1.1.DocName ≠ "" then
      let chng2 := { chng with msgType := MsgType.SetPreselect }
      notify env obs fuel chng2 { r1.1 with CurrentPreselection := chng2 }
    else (r1.1, [])
  ((if r2.1.DocName = "" then (0 : Int) else 1), r2.1, tr0 ++ r1.2 ++ r2.2)

/-- `SelectionSingleton::setPreselect`: null document or object clears the
preselection; a target textually identical to the stored one returns -1
immediately; otherwise the old preselection is removed, the gate is consulted
(unless the message source is `Internal`) with the gate's own resolve mode, and
on acceptance the new target is stored and published. -/
def setPreselect (env : Env) (obs : List Observer) (fuel : Nat)
    (pDocName pObjectName pSubName : Option String) (x y z : Int)
    (signal : MsgSource) (st : GState) : Int × GState × List Delivery :=
  match pDocName, pObjectName with
  | some docN, some objN =>
    let subN := pSubName.getD ""
    if st.DocName = docN ∧ st.FeatName = objN ∧ st.SubName = subN then (-1, st, [])
    else
      let r0 := rmvPreselect env obs fuel false st
      let st0 := r0.1
      match st0.ActiveGate with
      | some gate =>
        if signal ≠ MsgSource.Internal then
          match env.lookupDoc (some docN) with
          | none => (0, st0, r0.2)
          | some canonDoc =>
            match env.getObject canonDoc objN with
            | none => (0, st0, r0.2)
            | some pObject =>
              let ro : Option (DocObj × String) :=
                if st0.gateResolve ≠ ResolveMode.NoResolve then
                  match env.resolveElement pObject (some subN) with
                  | none => none
                  | some res =>
                    some (res.resolved,
                      if st0.gateResolve.gtOldStyle then
                        (if res.newName ≠ "" then res.newName else res.oldName)
                      else res.oldName)
                else some (pObject, subN)
              match ro with
              | none => (0, st0, r0.2)
              | some gos =>
                if gate (some gos.1.doc) (some gos.1) (some gos.2) then
                  setPreselectCommit env obs fuel docN objN subN x y z signal st0 r0.2
                else
                  -- vetoed: status message and forbidden cursor are external UI
                  (0, st0, r0.2)
        else setPreselectCommit env obs fuel docN objN subN x y z signal st0 r0.2
      | none => setPreselectCommit env obs fuel docN objN subN x y z signal st0 r0.2
  | _, _ =>
    let r := rmvPreselect env obs fuel false st
    (0, r.1, r.2)

/-- `SelectionGateFilterExternal`: the built-in gate that forbids selecting
outside `DocName` and forbids selecting `ObjName` itself. -/
structure SelectionGateFilterExternal where
  DocName : String
  ObjName : String
deriving DecidableEq, Repr

/-- `SelectionGateFilterExternal::allow`: null document or object is allowed;
an object in a foreign document is rejected ("Cannot select external object");
the guarded object itself is rejected ("Cannot select self"). -/
def SelectionGateFilterExternal.allow (g : SelectionGateFilterExternal)
    (doc : Option String) (obj : Option DocObj) (_sub : Option String) : Bool :=
  match doc, obj with
  | some d, some o =>
    if g.DocName ≠ "" ∧ d ≠ g.DocName then false
    else if g.ObjName ≠ "" ∧ g.ObjName = o.name then false
    else true
  | _, _ => true

/-- The snapshot loop of `selStackPush`: emplace every selection entry's
(document, object, sub-path) triple into a fresh `SelStackItem`. -/
def itemOf (l : List SelObjT) : SelStackItem :=
  l.foldl (fun it sel => stackItemInsert it (sel.DocName, sel.FeatName, sel.SubName)) []

/-- The part of `selStackPush` after the `clearForward` step: do nothing when
the selection is empty, evict the oldest back-stack entry when the bound is
reached, then append (or, with `overwrite`, replace the top with) the snapshot
unless it equals the current top. -/
def selStackPushCore (env : Env) (overwrite : Bool) (st : GState) : GState :=
  if st.SelList = [] then st
  else
    let stB :=
      if env.selectionStackSize ≤ st.SelStackBack.length then
        { st with SelStackBack := st.SelStackBack.tail }
      else st
    let item := itemOf stB.SelList
    let dup :=
      match stB.SelStackBack.getLast? with
      | some last => stackItemEqb last item
      | none => false
    if dup then stB
    else
      let back1 :=
        if overwrite = false ∨ stB.SelStackBack = [] then stB.SelStackBack ++ [[]]
        else stB.SelStackBack
      { stB with SelStackBack := back1.dropLast ++ [item] }

/-- `SelectionSingleton::selStackPush(clearForward, overwrite)`: clear the
forward stack if asked, then run the snapshot logic. -/
def selStackPush (env : Env) (clearForward overwrite : Bool) (st : GState) : GState :=
  selStackPushCore env overwrite
    (if clearForward then { st with SelStackForward := [] } else st)

/-- The snapshot-lookup step of `SelectionSingleton::selStackGet`: a
non-negative index counts back from the most recent back-stack entry; for a
negative index the source bounds-checks against `_SelStackForward` but then
indexes `_SelStackBack` (`&_SelStackBack[_SelStackForward.size() - 1 - index]`);
an out-of-range access of the C++ deque is modelled by `List.get?` returning
`none`. -/
def selStackGetItem (st : GState) (index : Int) : Option SelStackItem :=
  if 0 ≤ index then
    if st.SelStackBack.length ≤ index.toNat then none
    else st.SelStackBack.get? (st.SelStackBack.length - 1 - index.toNat)
  else
    let i := (-index - 1).toNat
    if st.SelStackForward.length ≤ i then none
    else st.SelStackBack.get? (st.SelStackForward.length - 1 - i)

/-- Modelled from the spec: the snapshot lookup of `get(index)` as section 4.5
describes it — "positive index counts back from most recent back-entry;
negative counts into the forward stack" — i.e. the negative branch reads the
forward stack it just bounds-checked. -/
def selStackGetItemSpec (st : GState) (index : Int) : Option SelStackItem :=
  if 0 ≤ index then
    if st.SelStackBack.length ≤ index.toNat then none
    else st.SelStackBack.get? (st.SelStackBack.length - 1 - index.toNat)
  else
    let i := (-index - 1).toNat
    if st.SelStackForward.length ≤ i then none
    else st.SelStackForward.get? (st.SelStackForward.length - 1 - i)

/-- The state established by the `SelectionSingleton` constructor: everything
empty, no gate, gate resolve mode `OldStyleElement`, and the preselection slot
holding the default-constructed (`ClrSelection`) sentinel. -/
def initState : GState :=
  { SelList := [], PickedList := [], NotificationQueue := [], Notifying := false,
    DocName := "", FeatName := "", SubName := "", hx := 0, hy := 0, hz := 0,
    CurrentPreselection := emptyMsg, SelStackBack := [], SelStackForward := [],
    ActiveGate := none, gateResolve := .OldStyleElement, logDisabled := 0 }

/-- An observer is *tame* when its only effect on the pump itself is to append
events to the pending queue (which is all a reentrant façade call can do while
`Notifying` is set) and it leaves the `Notifying` flag alone. -/
def TameObs (ob : Observer) : Prop :=
  ∀ m u, (ob m u).Notifying = u.Notifying ∧
    ∃ extra, (ob m u).NotificationQueue = u.NotificationQueue ++ extra

/-- Observers that do not mutate the state at all: the interference-free
environment in which per-call event counts are stated. -/
def PassiveObs (obs : List Observer) : Prop :=
  ∀ ob ∈ obs, ∀ m u, ob m u = u

/-- The candidate entry `checkSelection` builds for a triple whose resolution
is transparent (the top-parent check is the identity and the resolver returns
no new-style name). -/
def cleanSel (d s : String) (obj : DocObj) (res : ResolveResult) : SelObjT :=
  { DocName := d, FeatName := obj.name, SubName := s, TypeName := obj.typeName,
    pObject := obj, pResolvedObject := res.resolved,
    oldName := res.oldName, newName := res.newName,
    x := 0, y := 0, z := 0, logged := false }

/-! ### Concrete instances used by the witnesses -/

/-- A concrete document object living in document "Doc". -/
def objW : DocObj := { doc := "Doc", name := "Part", typeName := "App::Part", removeStatus := false }

/-- A concrete transparent environment around `objW`. -/
def envW : Env :=
  { getDocument := fun d => if d = "Doc" then some "Doc" else none,
    activeDocument := some "Doc",
    getObject := fun d o => if d = "Doc" ∧ o = "Part" then some objW else none,
    checkTopParent := fun o s => (o, s)
    resolveElement := fun o s =>
      if o = objW then
        some { resolved := objW, oldName := s.getD "", newName := "", element := some 0 }
      else none
    isAttached := fun _ => true,
    getLinkedObject := fun o => o,
    selectionStackSize := 100 }

/-- A single observer that does nothing. -/
def obsId : List Observer := [fun _ u => u]

/-- A single observer that reentrantly publishes an echo of every message it
receives (while the pump is delivering, this can only append to the queue). -/
def obsEcho : List Observer :=
  [fun m u => { u with NotificationQueue := u.NotificationQueue ++ [m] }]

/-- A single observer that reacts to an `AddSelection` event by clearing the
selection list (the effect of a reentrant `clearSelection` call). -/
def obsClear : List Observer :=
  [fun m u => if m.msgType = MsgType.AddSelection then { u with SelList := [] } else u]

/-- The resolver result `envW` produces for `objW` with sub-path "Edge1". -/
def resEdge1 : ResolveResult :=
  { resolved := objW, oldName := "Edge1", newName := "", element := some 0 }

/-- A pending `AddSelection` message for a subject that is not selected. -/
def msgAddW : SelectionChanges :=
  { msgType := .AddSelection, pDocName := "Doc", pObjectName := "Part", pSubName := "Edge1",
    pTypeName := "App::Part", x := 0, y := 0, z := 0 }

/-- A state in the middle of a delivery pass (`Notifying` set, one queued
message). -/
def stMid : GState := { initState with Notifying := true, NotificationQueue := [msgAddW] }

/-- A state whose queue holds one pending message while no pass is running. -/
def stQueued : GState := { initState with NotificationQueue := [msgAddW] }

/-- A state with a stored preselection on ("Doc", "Part", "Edge1"). -/
def stPre : GState :=
  { initState with
      DocName := "Doc", FeatName := "Part", SubName := "Edge1", hx := 1, hy := 2, hz := 3,
      CurrentPreselection :=
        { msgType := .SetPreselect, pDocName := "Doc", pObjectName := "Part",
          pSubName := "Edge1", pTypeName := "", x := 1, y := 2, z := 3 } }

/-- A state with an empty selection but a non-empty forward history stack. -/
def stFwd : GState := { initState with SelStackForward := [[("Doc", "Part", "Edge1")]] }

/-- The selection entry produced by selecting ("Doc", "Part", "Edge1"). -/
def selEdge1 : SelObjT :=
  { DocName := "Doc", FeatName := "Part", SubName := "Edge1", TypeName := "App::Part",
    pObject := objW, pResolvedObject := objW, oldName := "Edge1", newName := "",
    x := 1, y := 2, z := 3, logged := true }

/-- The snapshot of a selection holding exactly `selEdge1`. -/
def itemEdge1 : SelStackItem := [("Doc", "Part", "Edge1")]

/-- An older, different snapshot. -/
def itemOld : SelStackItem := [("Doc", "Other", "")]

/-- `envW` with the history stack bound lowered to 2. -/
def envCap2 : Env := { envW with selectionStackSize := 2 }

/-- A state whose selection is `selEdge1` and whose back stack holds one older
snapshot. -/
def stBack1 : GState := { initState with SelList := [selEdge1], SelStackBack := [itemOld] }

/-- A state for the history-get counterexample: two back snapshots, one forward
snapshot. -/
def stGet : GState :=
  { initState with
      SelStackBack := [[("B0", "", "")], [("B1", "", "")]]
      SelStackForward := [[("F0", "", "")]] }

/-- The selection entry produced by selecting ("Doc", "Part", "Edge10"). -/
def selEdge10 : SelObjT :=
  { DocName := "Doc", FeatName := "Part", SubName := "Edge10", TypeName := "App::Part",
    pObject := objW, pResolvedObject := objW, oldName := "Edge10", newName := "",
    x := 0, y := 0, z := 0, logged := true }

/-- A state holding entries for sub-paths "Edge1" and "Edge10". -/
def stTwo : GState := { initState with SelList := [selEdge1, selEdge10] }

/-- A concrete object living in document "B". -/
def objB : DocObj := { doc := "B", name := "Obj", typeName := "App::Part", removeStatus := false }

/-- An environment with two documents "A" and "B" and the object `objB` in
document "B". -/
def envAB : Env :=
  { getDocument := fun d => if d = "A" ∨ d = "B" then some d else none,
    activeDocument := some "A",
    getObject := fun d o => if d = "B" ∧ o = "Obj" then some objB else none,
    checkTopParent := fun o s => (o, s)
    resolveElement := fun o s =>
      if o = objB then
        some { resolved := objB, oldName := s.getD "", newName := "", element := some 0 }
      else none
    isAttached := fun _ => true,
    getLinkedObject := fun o => o,
    selectionStackSize := 100 }

/-- The resolver result `envAB` produces for `objB` with an empty sub-path. -/
def resB : ResolveResult := { resolved := objB, oldName := "", newName := "", element := some 0 }

/-- A state guarded by an `ExternalFilter` gate bound to document "A". -/
def stGateA : GState :=
  { initState with ActiveGate := some (SelectionGateFilterExternal.mk "A" "").allow }

/-! ### Properties of the notification pump -/

theorem deliverMsg_tame (obs : List Observer) (h : ∀ ob ∈ obs, TameObs ob)
    (m : SelectionChanges) (u : GState) :
    (deliverMsg obs m u).Notifying = u.Notifying ∧
    ∃ extra, (deliverMsg obs m u).NotificationQueue = u.NotificationQueue ++ extra := by
  induction obs generalizing u with
  | nil => exact ⟨rfl, [], by simp [deliverMsg]⟩
  | cons ob rest ih =>
    have h1 := h ob (List.mem_cons_self _ _) m u
    obtain ⟨e1, he1⟩ := h1.2
    have h2 := ih (fun o ho => h o (List.mem_cons_of_mem _ ho)) (ob m u)
    obtain ⟨e2, he2⟩ := h2.2
    refine ⟨?_, e1 ++ e2, ?_⟩
    · show (deliverMsg rest m (ob m u)).Notifying = u.Notifying
      rw [h2.1, h1.1]
    · show (deliverMsg rest m (ob m u)).NotificationQueue = u.NotificationQueue ++ (e1 ++ e2)
      rw [he2, he1, List.append_assoc]

theorem notifyLoop_blocks (env : Env) (obs : List Observer) :
    ∀ (fuel : Nat) (st : GState), ∃ ms : List SelectionChanges,
      (notifyLoop env obs fuel st).2 = ms.flatMap (fun m => blockTrace m obs.length) := by
  intro fuel
  induction fuel with
  | zero => exact fun st => ⟨[], rfl⟩
  | succ n ih =>
    intro st
    cases hq : st.NotificationQueue with
    | nil => exact ⟨[], by simp [notifyLoop, hq]⟩
    | cons m rest =>
      by_cases hf : notifyFilter env st m = true
      · obtain ⟨ms, hms⟩ := ih
          { deliverMsg obs m st with
              NotificationQueue := (deliverMsg obs m st).NotificationQueue.tail }
        exact ⟨m :: ms, by simp [notifyLoop, hq, hf, hms]⟩
      · obtain ⟨ms, hms⟩ := ih { st with NotificationQueue := rest }
        exact ⟨ms, by simp [notifyLoop, hq, Bool.eq_false_iff.mpr hf, hms]⟩

/-- C1: while a delivery pass is in progress, `notify` only appends the event
to the pending queue and delivers nothing; the trace of a delivery pass is a
concatenation of whole per-event blocks (one event handed to every observer in
order), so deliveries of two distinct queued events never interleave; and when
the front event `m` passes the filter, it is first delivered to all observers —
events published reentrantly during that delivery are appended behind the rest
of the queue — and only afterwards does the drain continue with the rest of the
queue in FIFO order. -/
theorem notify_fifo_reentrancy (env : Env) (obs : List Observer)
    (hobs : ∀ ob ∈ obs, TameObs ob) :
    (∀ (fuel : Nat) (chng : SelectionChanges) (st : GState), st.Notifying = true →
      notify env obs fuel chng st
        = ({ st with NotificationQueue := st.NotificationQueue ++ [chng] }, [])) ∧
    (∀ (fuel : Nat) (st : GState), ∃ ms : List SelectionChanges,
      (notifyLoop env obs fuel st).2 = ms.flatMap (fun m => blockTrace m obs.length)) ∧
    (∀ (fuel : Nat) (st : GState) (m : SelectionChanges) (rest : List SelectionChanges),
      st.NotificationQueue = m :: rest →
      notifyFilter env st m = true →
      ∃ extra : List SelectionChanges,
        (deliverMsg obs m st).NotificationQueue = m :: (rest ++ extra) ∧
        notifyLoop env obs (fuel + 1) st
          = ((notifyLoop env obs fuel
                { deliverMsg obs m st with NotificationQueue := rest ++ extra }).1,
              blockTrace m obs.length
                ++ (notifyLoop env obs fuel
                    { deliverMsg obs m st with NotificationQueue := rest ++ extra }).2)) := by
  refine ⟨?_, notifyLoop_blocks env obs, ?_⟩
  · intro fuel chng st hn
    simp [notify, hn]
  · intro fuel st m rest hq hf
    obtain ⟨extra, hextra⟩ := (deliverMsg_tame obs hobs m st).2
    rw [hq] at hextra
    refine ⟨extra, by simp [hextra], ?_⟩
    simp [notifyLoop, hq, hf, hextra]

/-- C2: during the drain loop, each front event is filtered against the state
at delivery time: an `AddSelection` event passes the filter exactly when its
subject is still selected, a `RmvSelection` event exactly when its subject is
no longer selected, a `SetPreselect` event exactly when it matches the current
preselection, a `RmvPreselect` event exactly when the preselection slot holds
the cleared sentinel; an event that fails the filter is popped without any
observer delivery, while one that passes is delivered to every observer. -/
theorem notify_delivery_filter (env : Env) (obs : List Observer) (fuel : Nat)
    (st : GState) (m : SelectionChanges) (rest : List SelectionChanges)
    (hq : st.NotificationQueue = m :: rest) :
    (m.msgType = MsgType.AddSelection →
      notifyFilter env st m
        = isSelectedB env st.SelList m.pDocName m.pObjectName m.pSubName
            ResolveMode.NoResolve) ∧
    (m.msgType = MsgType.RmvSelection →
      notifyFilter env st m
        = ! isSelectedB env st.SelList m.pDocName m.pObjectName m.pSubName
            ResolveMode.NoResolve) ∧
    (m.msgType = MsgType.SetPreselect →
      (notifyFilter env st m = true ↔
        st.CurrentPreselection.msgType = MsgType.SetPreselect ∧
        (st.CurrentPreselection.pDocName, st.CurrentPreselection.pObjectName,
            st.CurrentPreselection.pSubName)
          = (m.pDocName, m.pObjectName, m.pSubName))) ∧
    (m.msgType = MsgType.RmvPreselect →
      (notifyFilter env st m = true ↔
        st.CurrentPreselection.msgType = MsgType.ClrSelection)) ∧
    (notifyFilter env st m = false →
      notifyLoop env obs (fuel + 1) st
        = notifyLoop env obs fuel { st with NotificationQueue := rest }) ∧
    (notifyFilter env st m = true →
      (notifyLoop env obs (fuel + 1) st).2
        = blockTrace m obs.length
          ++ (notifyLoop env obs fuel
              { deliverMsg obs m st with
                  NotificationQueue := (deliverMsg obs m st).NotificationQueue.tail }).2) := by
  refine ⟨?_, ?_, ?_, ?_, ?_, ?_⟩
  · intro h; simp [notifyFilter, h]
  · intro h; simp [notifyFilter, h]
  · intro h; simp [notifyFilter, h]
  · intro h; simp [notifyFilter, h]
  · intro h; simp [notifyLoop, hq, h]
  · intro h; simp [notifyLoop, hq, h]

theorem deliverMsg_passive (obs : List Observer) (h : PassiveObs obs)
    (m : SelectionChanges) (u : GState) : deliverMsg obs m u = u := by
  induction obs with
  | nil => rfl
  | cons ob rest ih =>
    show deliverMsg rest m (ob m u) = u
    rw [h ob (List.mem_cons_self _ _) m u]
    exact ih fun o ho => h o (List.mem_cons_of_mem _ ho)

theorem notifyFilter_pumpfields (env : Env) (st : GState) (b : Bool)
    (q : List SelectionChanges) (m : SelectionChanges) :
    notifyFilter env { st with Notifying := b, NotificationQueue := q } m
      = notifyFilter env st m := rfl

theorem notifyLoop_nil (env : Env) (obs : List Observer) (fuel : Nat) (u : GState)
    (hq : u.NotificationQueue = []) : notifyLoop env obs fuel u = (u, []) := by
  cases fuel with
  | zero => rfl
  | succ n => simp [notifyLoop, hq]

/-- With passive observers, publishing one message onto an idle pump with an
empty queue delivers it (if it passes the filter) and returns the state
untouched. -/
theorem notify_passive_single (env : Env) (obs : List Observer) (fuel : Nat)
    (chng : SelectionChanges) (st : GState) (hp : PassiveObs obs)
    (hn : st.Notifying = false) (hq : st.NotificationQueue = []) :
    notify env obs (fuel + 1) chng st
      = (st, if notifyFilter env st chng then blockTrace chng obs.length else []) := by
  have hd := deliverMsg_passive obs hp
  have hst : ({ st with Notifying := false, NotificationQueue := [] } : GState) = st := by
    ext <;> simp [hn, hq]
  by_cases hf : notifyFilter env st chng = true <;>
    simp [notify, hn, hq, notifyLoop, notifyFilter_pumpfields, hf, hd, notifyLoop_nil, hst]

/-! ### `checkSelection` under a transparent resolution environment -/

theorem checkSelection_noresolve (env : Env) (L : List SelObjT) (d o s : String)
    (obj : DocObj) (res : ResolveResult)
    (hd : d ≠ "") (hdoc : env.getDocument d = some d)
    (hobj : env.getObject d o = some obj) (hrm : obj.removeStatus = false)
    (htp : env.checkTopParent obj s = (obj, s))
    (hres : env.resolveElement obj (if s = "" then none else some s) = some res)
    (hnew : res.newName = "") (hrrm : res.resolved.removeStatus = false) :
    checkSelection env L (some d) (some o) (some s) ResolveMode.NoResolve
      = some (decide (∃ e ∈ L, e.DocName = d ∧ e.FeatName = obj.name ∧ e.SubName = s),
          cleanSel d s obj res) := by
  by_cases hs : s = ""
  · subst hs
    have hres2 : env.resolveElement obj none = some res := by simpa using hres
    by_cases hex : ∃ e ∈ L, e.DocName = d ∧ e.FeatName = obj.name ∧ e.SubName = "" <;>
      simp [checkSelection, Env.lookupDoc, hd, hdoc, hobj, hrm, htp, hres2, hrrm,
        cleanSel, ResolveMode.gtOldStyle, hex] <;>
      exact fun x hx h1 h2 h3 => hex ⟨x, hx, h1, h2, h3⟩
  · have hres2 : env.resolveElement obj (some s) = some res := by simpa [hs] using hres
    by_cases hex : ∃ e ∈ L, e.DocName = d ∧ e.FeatName = obj.name ∧ e.SubName = s <;>
      rcases hel : res.element with _ | off <;>
        simp [checkSelection, Env.lookupDoc, hd, hdoc, hobj, hrm, htp, hres2, hrrm, hs, hel,
          hnew, cleanSel, ResolveMode.gtOldStyle, hex] <;>
        exact fun x hx h1 h2 h3 => hex ⟨x, hx, h1, h2, h3⟩

theorem isSelectedB_oldstyle_hit (env : Env) (L : List SelObjT) (d o s : String)
    (obj : DocObj) (res : ResolveResult)
    (hd : d ≠ "") (hdoc : env.getDocument d = some d)
    (hobj : env.getObject d o = some obj) (hrm : obj.removeStatus = false)
    (hres : env.resolveElement obj (if s = "" then none else some s) = some res)
    (hnew : res.newName = "") (hrrm : res.resolved.removeStatus = false)
    (hhit : ∃ e ∈ L, e.DocName = d ∧ e.FeatName = obj.name ∧ e.SubName = s) :
    isSelectedB env L d o s ResolveMode.OldStyleElement = true := by
  have hcond : ∃ x ∈ L, (x.DocName = d ∧ x.FeatName = obj.name) ∧ x.SubName = s := by
    obtain ⟨e, he, h1, h2, h3⟩ := hhit
    exact ⟨e, he, ⟨h1, h2⟩, h3⟩
  by_cases hs : s = ""
  · subst hs
    have hres2 : env.resolveElement obj none = some res := by simpa using hres
    simp [isSelectedB, checkSelection, Env.lookupDoc, hd, hdoc, hobj, hrm, hres2, hrrm,
      ResolveMode.gtOldStyle, hcond]
  · have hres2 : env.resolveElement obj (some s) = some res := by simpa [hs] using hres
    rcases hel : res.element with _ | off <;>
      simp [isSelectedB, checkSelection, Env.lookupDoc, hd, hdoc, hobj, hrm, hres2, hrrm,
        hs, hel, hnew, ResolveMode.gtOldStyle, hcond]

/-! ### Preselection -/

/-- C6: `setPreselect` called with a (document, object, subPath) triple
textually identical to the stored preselection target returns -1 (`Unchanged`)
immediately: no event is published and the state — including the stored pick
point — is not modified, whatever pick point and message source are supplied. -/
theorem setPreselect_unchanged (env : Env) (obs : List Observer) (fuel : Nat)
    (d o s : String) (x y z : Int) (signal : MsgSource) (st : GState)
    (hd : st.DocName = d) (ho : st.FeatName = o) (hs : st.SubName = s) :
    setPreselect env obs fuel (some d) (some o) (some s) x y z signal st = (-1, st, []) := by
  simp [setPreselect, hd, ho, hs]

/-- Witness for C6: repeating the stored ("Doc","Part","Edge1") target with a
different pick point (9,9,9) returns `Unchanged` and leaves the state alone. -/
theorem setPreselect_unchanged_witness :
    setPreselect envW obsId 3 (some "Doc") (some "Part") (some "Edge1") 9 9 9 MsgSource.Any stPre
      = (-1, stPre, []) :=
  setPreselect_unchanged envW obsId 3 "Doc" "Part" "Edge1" 9 9 9 MsgSource.Any stPre rfl rfl rfl

/-! ### The history stack -/

/-- C7 counterexample: with an empty selection but a non-empty forward stack,
`selStackPush(clearForward := true, overwriteTop := false)` does not leave both
stacks unchanged — it clears the forward stack before the empty-selection
check. -/
theorem selStackPush_empty_cex :
    stFwd.SelList = [] ∧
    (selStackPush envW true false stFwd).SelStackForward ≠ stFwd.SelStackForward :=
  ⟨rfl, by decide⟩

/-- C7 (amended): if the current selection set is empty, `selStackPush` pushes
nothing and leaves the back stack (and everything else) unchanged; the forward
stack is also unchanged unless `clearForward` is true, in which case it is
cleared even though the selection is empty. -/
theorem selStackPush_empty_amended (env : Env) (cf ow : Bool) (st : GState)
    (h : st.SelList = []) :
    selStackPush env cf ow st
      = { st with SelStackForward := if cf then [] else st.SelStackForward } := by
  cases cf <;> simp [selStackPush, selStackPushCore, h] <;> rw [← h]

/-- Witness for the amended C7 at a concrete state. -/
theorem selStackPush_empty_amended_witness :
    selStackPush envW true false stFwd = { stFwd with SelStackForward := [] } :=
  selStackPush_empty_amended envW true false stFwd rfl

/-- C9: the snapshot lookup of `selStackGet` for a negative index reads
`_SelStackBack` — indexed with `_SelStackForward`'s size — although the spec
(and the bounds check the function itself just performed) refer to the forward
stack: at a state with back snapshots B0, B1 and forward snapshot F0, index -1
returns B0, not the forward snapshot F0 that the spec-modelled lookup returns. -/
theorem selStackGet_negative_reads_back :
    selStackGetItem stGet (-1) = some [("B0", "", "")] ∧
    selStackGetItemSpec stGet (-1) = some [("F0", "", "")] ∧
    selStackGetItem stGet (-1) ≠ selStackGetItemSpec stGet (-1) := by
  refine ⟨by decide, by decide, by decide⟩

theorem stackItemEqb_refl (a : SelStackItem) : stackItemEqb a a = true := by
  simp [stackItemEqb, List.Subset.refl]

theorem getLast?_append_singleton {α : Type} (l : List α) (a : α) :
    (l ++ [a]).getLast? = some a := by
  rw [List.getLast?_append_cons]
  rfl

theorem selStackPushCore_SelList (env : Env) (ow : Bool) (u : GState) :
    (selStackPushCore env ow u).SelList = u.SelList := by
  have hstB : (if env.selectionStackSize ≤ u.SelStackBack.length then
      ({ u with SelStackBack := u.SelStackBack.tail } : GState) else u).SelList
        = u.SelList := by
    split <;> rfl
  by_cases hsel : u.SelList = []
  · simp [selStackPushCore, hsel]
  · simp only [selStackPushCore, if_neg hsel]
    split <;> split <;> rfl

theorem selStackPush_SelList (env : Env) (cf ow : Bool) (st : GState) :
    (selStackPush env cf ow st).SelList = st.SelList := by
  cases cf <;> simp [selStackPush, selStackPushCore_SelList]

/-- After the snapshot logic runs on a non-empty selection, the top of the
back stack is set-equal to the snapshot of the current selection. -/
theorem selStackPushCore_getLast (env : Env) (ow : Bool) (u : GState)
    (hsel : u.SelList ≠ []) :
    ∃ last, (selStackPushCore env ow u).SelStackBack.getLast? = some last ∧
      stackItemEqb last (itemOf u.SelList) = true := by
  simp only [selStackPushCore, if_neg hsel]
  split <;>
    · split
      next hdup =>
        split at hdup
        · rename_i l heq
          exact ⟨l, heq, hdup⟩
        · simp at hdup
      next hdup =>
        refine ⟨itemOf u.SelList, ?_, stackItemEqb_refl _⟩
        dsimp only
        exact getLast?_append_singleton _ _

/-- A push whose snapshot is already on top of a below-capacity back stack
changes nothing. -/
theorem selStackPushCore_noop (env : Env) (ow : Bool) (u : GState) (last : SelStackItem)
    (hsel : u.SelList ≠ [])
    (hcap : u.SelStackBack.length < env.selectionStackSize)
    (hl : u.SelStackBack.getLast? = some last)
    (heq : stackItemEqb last (itemOf u.SelList) = true) :
    selStackPushCore env ow u = u := by
  simp [selStackPushCore, hsel, Nat.not_le.mpr hcap, hl, heq]

/-- C8 counterexample: at capacity (bound 2) with back stack `[itemOld,
itemEdge1]` where `itemEdge1` is the snapshot of the current selection, a
second identical push does not leave the back stack unchanged: it first evicts
the oldest entry and only then detects the duplicate, shrinking the stack to
`[itemEdge1]`. -/
theorem selStackPush_capacity_cex :
    (selStackPush envCap2 false false stBack1).SelStackBack = [itemOld, itemEdge1] ∧
    (selStackPush envCap2 false false
        (selStackPush envCap2 false false stBack1)).SelStackBack = [itemEdge1] :=
  ⟨by decide, by decide⟩

/-- C8 (amended): pushing twice in a row with no selection change yields
exactly one new back-stack entry, and — provided the back stack is strictly
below its capacity after the first push — the second push is a complete no-op
when `clearForward` is false, and only clears the forward stack when
`clearForward` is true.  (At capacity the second push additionally evicts the
oldest back-stack entry before the duplicate is detected, as the
counterexample shows.) -/
theorem selStackPush_duplicate_amended (env : Env) (cf ow ow2 : Bool) (st : GState)
    (hsel : st.SelList ≠ [])
    (hcap : (selStackPush env cf ow st).SelStackBack.length < env.selectionStackSize) :
    selStackPush env false ow2 (selStackPush env cf ow st) = selStackPush env cf ow st ∧
    ∀ ow3 : Bool, selStackPush env true ow3 (selStackPush env cf ow st)
      = { selStackPush env cf ow st with SelStackForward := [] } := by
  have hstA : (if cf then { st with SelStackForward := [] } else st : GState).SelList
      = st.SelList := by cases cf <;> simp
  obtain ⟨last, hl, heq⟩ := by
    refine selStackPushCore_getLast env ow (if cf then { st with SelStackForward := [] } else st) ?_
    rw [hstA]; exact hsel
  rw [show (if cf then ({ st with SelStackForward := [] } : GState) else st).SelList = st.SelList
    from hstA] at heq
  have hsl := selStackPush_SelList env cf ow st
  have hsel1 : (selStackPush env cf ow st).SelList ≠ [] := by rw [hsl]; exact hsel
  have heq1 : stackItemEqb last (itemOf (selStackPush env cf ow st).SelList) = true := by
    rw [hsl]; exact heq
  have hl1 : (selStackPush env cf ow st).SelStackBack.getLast? = some last := hl
  constructor
  · show selStackPushCore env ow2 (selStackPush env cf ow st) = _
    exact selStackPushCore_noop env ow2 _ last hsel1 hcap hl1 heq1
  · intro ow3
    show selStackPushCore env ow3
        ({ selStackPush env cf ow st with SelStackForward := [] }) = _
    refine selStackPushCore_noop env ow3 _ last ?_ ?_ ?_ ?_ <;> simpa using ‹_›

/-- Witness for the amended C8, below capacity: the second identical push
changes nothing, and with `clearForward` it only empties the forward stack. -/
theorem selStackPush_duplicate_amended_witness :
    selStackPush envW false false (selStackPush envW false false stBack1)
        = selStackPush envW false false stBack1 ∧
    selStackPush envW true false (selStackPush envW false false stBack1)
        = { selStackPush envW false false stBack1 with SelStackForward := [] } := by
  have h := selStackPush_duplicate_amended envW false false false stBack1
    (by decide) (by decide)
  exact ⟨h.1, h.2 false⟩

/-- Witness for C1: with the echoing observer and the pump mid-delivery, a
publish call only appends the event to the pending queue and delivers
nothing. -/
theorem notify_fifo_reentrancy_witness :
    notify envW obsEcho 3 msgAddW stMid
      = ({ stMid with NotificationQueue := stMid.NotificationQueue ++ [msgAddW] }, []) :=
  (notify_fifo_reentrancy envW obsEcho
      (fun ob hob => by
        simp only [obsEcho, List.mem_singleton] at hob
        subst hob
        exact fun m u => ⟨rfl, ⟨[m], rfl⟩⟩)).1
    3 msgAddW stMid rfl

/-- Witness for C2: a queued `AddSelection` message whose subject is not
selected equals the selected-check on the current list, fails the filter, and
is dropped without any observer delivery. -/
theorem notify_delivery_filter_witness :
    notifyFilter envW stQueued msgAddW
      = isSelectedB envW stQueued.SelList msgAddW.pDocName msgAddW.pObjectName msgAddW.pSubName
          ResolveMode.NoResolve ∧
    notifyLoop envW obsId 3 stQueued
      = notifyLoop envW obsId 2 { stQueued with NotificationQueue := [] } :=
  ⟨(notify_delivery_filter envW obsId 2 stQueued msgAddW [] rfl).1 rfl,
   (notify_delivery_filter envW obsId 2 stQueued msgAddW [] rfl).2.2.2.2.1 (by decide)⟩

/-! ### Removal with dot-boundary sub-path matching -/

theorem getLast?_eq_getD {S : List Char} (hS : S ≠ []) (d : Char) :
    S.getLast? = some (S.getD (S.length - 1) d) := by
  have hlen : S.length - 1 < S.length := by
    have := List.length_pos.mpr hS
    omega
  rw [List.getLast?_eq_getElem?, List.getD_eq_getElem?_getD, List.getElem?_eq_getElem hlen]
  rfl

/-- The dot-boundary condition of the removal loop, characterized: a non-empty
requested sub-path matches a stored one exactly when they are equal, or the
requested one is a strict prefix of the stored one and ends with a `'.'`. -/
theorem rmv_boundary_list (S E : List Char) (hS : S ≠ []) :
    (S <+: E ∧ (E.length = S.length ∨ E.getD (S.length - 1) ' ' = '.'))
      ↔ (E = S ∨ (S <+: E ∧ S.length < E.length ∧ S.getLast? = some '.')) := by
  have hlen0 : 0 < S.length := List.length_pos.mpr hS
  constructor
  · rintro ⟨hpre, hor⟩
    by_cases heq : E = S
    · exact Or.inl heq
    · right
      have hle : S.length ≤ E.length := hpre.length_le
      have hlt : S.length < E.length := by
        rcases Nat.lt_or_eq_of_le hle with h | h
        · exact h
        · exact absurd (hpre.eq_of_length h).symm heq
      refine ⟨hpre, hlt, ?_⟩
      rcases hor with hlen | hdot
      · omega
      · obtain ⟨t, rfl⟩ := hpre
        rw [List.getD_append _ _ _ _ (by omega)] at hdot
        rw [getLast?_eq_getD hS ' ', hdot]
  · rintro (rfl | ⟨hpre, hlt, hlast⟩)
    · exact ⟨List.prefix_refl _, Or.inl rfl⟩
    · refine ⟨hpre, Or.inr ?_⟩
      obtain ⟨t, rfl⟩ := hpre
      rw [List.getD_append _ _ _ _ (by omega)]
      rw [getLast?_eq_getD hS ' '] at hlast
      exact Option.some.inj hlast

/-- `rmvMatches` of an entry, rewritten into the exact-or-dot-boundary-prefix
form of the "Prefix removal" testable property. -/
theorem rmvMatches_boundary (temp e : SelObjT) (hs : temp.SubName ≠ "") :
    rmvMatches temp e
      = (decide (e.DocName = temp.DocName) && decide (e.FeatName = temp.FeatName) &&
         (decide (e.SubName = temp.SubName) ||
          (decide (temp.SubName.toList <+: e.SubName.toList) &&
           decide (temp.SubName.length < e.SubName.length) &&
           decide (temp.SubName.toList.getLast? = some '.')))) := by
  have hS : temp.SubName.toList ≠ [] := fun h => hs (String.ext h)
  have bext : ∀ a b : Bool, (a = b) ↔ ((a = true) ↔ (b = true)) := by decide
  rw [bext]
  simp only [rmvMatches, boostStartsWith, Bool.and_eq_true, Bool.or_eq_true,
    decide_eq_true_eq, hs, false_or]
  constructor
  · rintro ⟨hab, h3⟩
    refine ⟨hab, ?_⟩
    have h5 := (rmv_boundary_list temp.SubName.toList e.SubName.toList hS).mp ⟨h3.1, h3.2⟩
    rcases h5 with h | ⟨hp, hl, hd⟩
    · exact Or.inl (String.ext h)
    · exact Or.inr ⟨⟨hp, hl⟩, hd⟩
  · rintro ⟨hab, h3⟩
    refine ⟨hab, ?_⟩
    have h5 : e.SubName.toList = temp.SubName.toList ∨
        (temp.SubName.toList <+: e.SubName.toList ∧
          temp.SubName.toList.length < e.SubName.toList.length ∧
          temp.SubName.toList.getLast? = some '.') := by
      rcases h3 with h | ⟨⟨hp, hl⟩, hd⟩
      · exact Or.inl (by rw [h])
      · exact Or.inr ⟨hp, hl, hd⟩
    have h6 := (rmv_boundary_list temp.SubName.toList e.SubName.toList hS).mpr h5
    exact ⟨h6.1, h6.2⟩

theorem notifyLoop_SelList (env : Env) (obs : List Observer) (hpass : PassiveObs obs) :
    ∀ (fuel : Nat) (u : GState), (notifyLoop env obs fuel u).1.SelList = u.SelList := by
  intro fuel
  induction fuel with
  | zero => intro u; rfl
  | succ n ih =>
    intro u
    cases hq : u.NotificationQueue with
    | nil => simp [notifyLoop, hq]
    | cons m rest =>
      by_cases hf : notifyFilter env u m = true <;>
        simp [notifyLoop, hq, hf, deliverMsg_passive obs hpass, ih]

theorem notify_SelList (env : Env) (obs : List Observer) (fuel : Nat)
    (c : SelectionChanges) (u : GState) (hpass : PassiveObs obs) :
    (notify env obs fuel c u).1.SelList = u.SelList := by
  by_cases hn : u.Notifying <;>
    simp [notify, hn, notifyLoop_SelList env obs hpass]

theorem notifyFold_SelList (env : Env) (obs : List Observer) (fuel : Nat)
    (hpass : PassiveObs obs) (cs : List SelectionChanges) (a : GState × List Delivery) :
    (cs.foldl (fun acc c =>
        ((notify env obs fuel c acc.1).1, acc.2 ++ (notify env obs fuel c acc.1).2)) a).1.SelList
      = a.1.SelList := by
  induction cs generalizing a with
  | nil => rfl
  | cons c rest ih =>
    rw [List.foldl_cons, ih]
    exact notify_SelList env obs fuel c a.1 hpass

/-- C4: with a non-empty requested sub-path, `rmvSelection` removes exactly
those entries whose document and object names match and whose stored sub-path
either equals the requested one, or strictly extends it with the requested
prefix ending in a `'.'` (so "Edge1" never matches a stored "Edge10"). -/
theorem rmvSelection_prefix_boundary (env : Env) (obs : List Observer) (fuel : Nat)
    (d o s : String) (obj : DocObj) (res : ResolveResult) (st : GState)
    (hd : d ≠ "") (hdoc : env.getDocument d = some d)
    (hobj : env.getObject d o = some obj) (hname : obj.name = o)
    (hrm : obj.removeStatus = false)
    (htp : env.checkTopParent obj s = (obj, s))
    (hres : env.resolveElement obj (if s = "" then none else some s) = some res)
    (hnew : res.newName = "") (hrrm : res.resolved.removeStatus = false)
    (hs : s ≠ "") (hpass : PassiveObs obs) :
    (rmvSelection env obs fuel (some d) (some o) (some s) none st).1.SelList
      = st.SelList.filter (fun e =>
          ! (decide (e.DocName = d) && decide (e.FeatName = o) &&
             (decide (e.SubName = s) ||
              (decide (s.toList <+: e.SubName.toList) &&
               decide (s.length < e.SubName.length) &&
               decide (s.toList.getLast? = some '.'))))) := by
  have hchk := checkSelection_noresolve env st.SelList d o s obj res hd hdoc hobj hrm htp
    hres hnew hrrm
  have hmatch : ∀ e, rmvMatches (cleanSel d s obj res) e
      = (decide (e.DocName = d) && decide (e.FeatName = o) &&
         (decide (e.SubName = s) ||
          (decide (s.toList <+: e.SubName.toList) &&
           decide (s.length < e.SubName.length) &&
           decide (s.toList.getLast? = some '.')))) := by
    intro e
    rw [rmvMatches_boundary (cleanSel d s obj res) e (by simpa [cleanSel] using hs)]
    simp [cleanSel, hname]
  simp only [rmvSelection, hchk]
  rw [notifyFold_SelList env obs fuel hpass]
  simp only [hmatch]

/-- Witness for C4: with entries for "Edge1" and "Edge10" selected, removing
("Doc", "Part", "Edge1") removes only the exact "Edge1" entry and leaves
"Edge10" selected. -/
theorem rmvSelection_prefix_boundary_witness :
    (rmvSelection envW obsId 3 (some "Doc") (some "Part") (some "Edge1") none stTwo).1.SelList
      = [selEdge10] :=
  (rmvSelection_prefix_boundary envW obsId 3 "Doc" "Part" "Edge1" objW resEdge1 stTwo
      (by decide) (by decide) (by decide) rfl rfl rfl (by decide) rfl (by decide) (by decide)
      (fun ob hob => by
        simp only [obsId, List.mem_singleton] at hob
        subst hob
        exact fun m u => rfl)).trans (by decide)

/-! ### Gate veto -/

/-- C5: when the active `ExternalFilter` gate (bound to document `gdoc`) vetoes
a candidate — here a whole-object candidate resolving into a different
document — `addSelection` returns false, leaves the state exactly unchanged
(no entry appended) and publishes no event at all. -/
theorem addSelection_gate_veto (env : Env) (obs : List Observer) (fuel : Nat)
    (b o : String) (x y z : Int) (obj : DocObj) (res : ResolveResult)
    (gdoc : String) (st : GState)
    (hb : b ≠ "") (hdoc : env.getDocument b = some b)
    (hobj : env.getObject b o = some obj) (hrm : obj.removeStatus = false)
    (htp : env.checkTopParent obj "" = (obj, ""))
    (hres : env.resolveElement obj none = some res)
    (hnew : res.newName = "") (hrrm : res.resolved.removeStatus = false)
    (hatt : env.isAttached obj = true)
    (hgr : st.gateResolve = ResolveMode.OldStyleElement)
    (hgate : st.ActiveGate = some (SelectionGateFilterExternal.mk gdoc "").allow)
    (hgd : gdoc ≠ "") (hneq : res.resolved.doc ≠ gdoc) :
    addSelection env obs fuel (some b) (some o) (some "") x y z none true st
      = (false, st, []) := by
  have hchk := checkSelection_noresolve env st.SelList b o "" obj res hb hdoc hobj hrm htp
    (by simpa using hres) hnew hrrm
  by_cases hex : ∃ e ∈ st.SelList, e.DocName = b ∧ e.FeatName = obj.name ∧ e.SubName = ""
  · simp [addSelection, hchk, hex]
  · simp [addSelection, hchk, hex, hgate, hgr, getObjectOfType, hatt, cleanSel,
      SelectionGateFilterExternal.allow, hgd, hneq]

/-- Witness for C5: with an external-filter gate bound to document "A", adding
("B", "Obj", "") fails, changes nothing and publishes nothing. -/
theorem addSelection_gate_veto_witness :
    addSelection envAB obsId 3 (some "B") (some "Obj") (some "") 0 0 0 none true stGateA
      = (false, stGateA, []) :=
  addSelection_gate_veto envAB obsId 3 "B" "Obj" 0 0 0 objB resB "A" stGateA
    (by decide) (by decide) (by decide) rfl rfl (by decide) rfl rfl rfl rfl rfl
    (by decide) (by decide)

/-! ### Idempotent addSelection -/

/-- `rmvPreselect` does nothing when no preselection is stored, for both the
signal and the non-signal variant. -/
theorem rmvPreselect_noop (env : Env) (obs : List Observer) (fuel : Nat) (sig : Bool)
    (u : GState) (h : u.DocName = "") : rmvPreselect env obs fuel sig u = (u, []) := by
  simp [rmvPreselect, h]

/-- C3: for a triple that resolves transparently with no gate active, calling
`addSelection` twice in a row from a clean state yields exactly one selection
entry and exactly one delivered `AddSelection` event: the first call returns
true, and the second call detects the existing entry, mutates nothing, returns
false and publishes nothing. -/
theorem addSelection_idempotent (env : Env) (obs : List Observer) (fuel : Nat)
    (d o s : String) (x y z : Int) (obj : DocObj) (res : ResolveResult) (st : GState)
    (hd : d ≠ "") (hdoc : env.getDocument d = some d)
    (hobj : env.getObject d o = some obj) (hname : obj.name = o)
    (hrm : obj.removeStatus = false)
    (htp : env.checkTopParent obj s = (obj, s))
    (hres : env.resolveElement obj (if s = "" then none else some s) = some res)
    (hnew : res.newName = "") (hrrm : res.resolved.removeStatus = false)
    (hpass : PassiveObs obs)
    (hsl : st.SelList = []) (hn : st.Notifying = false) (hq : st.NotificationQueue = [])
    (hpre : st.DocName = "") (hlog : st.logDisabled = 0) (hgate : st.ActiveGate = none) :
    (addSelection env obs (fuel + 1) (some d) (some o) (some s) x y z none true st).1 = true ∧
    ((addSelection env obs (fuel + 1) (some d) (some o) (some s) x y z none true st).2.1.SelList.map
        (fun e => (e.DocName, e.FeatName, e.SubName))) = [(d, o, s)] ∧
    (addSelection env obs (fuel + 1) (some d) (some o) (some s) x y z none true st).2.2
      = blockTrace
          { msgType := .AddSelection, pDocName := d, pObjectName := o, pSubName := s,
            pTypeName := obj.typeName, x := x, y := y, z := z } obs.length ∧
    addSelection env obs (fuel + 1) (some d) (some o) (some s) x y z none true
        (addSelection env obs (fuel + 1) (some d) (some o) (some s) x y z none true st).2.1
      = (false,
          (addSelection env obs (fuel + 1) (some d) (some o) (some s) x y z none true st).2.1,
          []) := by
  subst hname
  have hchk0 : checkSelection env st.SelList (some d) (some obj.name) (some s)
      ResolveMode.NoResolve = some (false, cleanSel d s obj res) := by
    rw [checkSelection_noresolve env st.SelList d obj.name s obj res hd hdoc hobj hrm htp
      hres hnew hrrm, hsl]
    simp
  have hselNew : isSelectedB env
      (st.SelList ++
        [{ DocName := d, FeatName := obj.name, SubName := s, TypeName := obj.typeName, pObject := obj, pResolvedObject := res.resolved, oldName := res.oldName, newName := res.newName, x := x, y := y, z := z, logged := true }])
      d obj.name s ResolveMode.NoResolve = true := by
    rw [hsl]
    unfold isSelectedB
    rw [checkSelection_noresolve env _ d obj.name s obj res hd hdoc hobj hrm
      htp hres hnew hrrm]
    simp
  have hselOld : isSelectedB env
      (st.SelList ++
        [{ DocName := d, FeatName := obj.name, SubName := s, TypeName := obj.typeName, pObject := obj, pResolvedObject := res.resolved, oldName := res.oldName, newName := res.newName, x := x, y := y, z := z, logged := true }])
      d obj.name s ResolveMode.OldStyleElement = true := by
    refine isSelectedB_oldstyle_hit env _ d obj.name s obj res hd hdoc hobj hrm hres hnew hrrm
      ⟨{ DocName := d, FeatName := obj.name, SubName := s, TypeName := obj.typeName, pObject := obj, pResolvedObject := res.resolved, oldName := res.oldName, newName := res.newName, x := x, y := y, z := z, logged := true }, by simp, rfl, rfl, rfl⟩
  have hchk1 : checkSelection env
      (st.SelList ++
        [{ DocName := d, FeatName := obj.name, SubName := s, TypeName := obj.typeName, pObject := obj, pResolvedObject := res.resolved, oldName := res.oldName, newName := res.newName, x := x, y := y, z := z, logged := true }])
      (some d) (some obj.name) (some s) ResolveMode.NoResolve
      = some (true, cleanSel d s obj res) := by
    rw [hsl]
    rw [checkSelection_noresolve env _ d obj.name s obj res hd hdoc hobj hrm
      htp hres hnew hrrm]
    simp
  have hmain : addSelection env obs (fuel + 1) (some d) (some obj.name) (some s) x y z none
      true st
      = (true,
          { st with SelList := st.SelList ++ [{ DocName := d, FeatName := obj.name, SubName := s, TypeName := obj.typeName, pObject := obj, pResolvedObject := res.resolved, oldName := res.oldName, newName := res.newName, x := x, y := y, z := z, logged := true }], SelStackForward := [] },
          blockTrace
            ({ msgType := .AddSelection, pDocName := d, pObjectName := obj.name, pSubName := s, pTypeName := obj.typeName, x := x, y := y, z := z })
            obs.length) := by
    simp only [addSelection, hchk0, hgate, hlog, cleanSel, if_true, eq_self_iff_true,
      rmvPreselect_noop, hpre, notify_passive_single env obs fuel, hpass, hn, hq,
      notifyFilter, hselNew, hselOld, List.append_nil, List.nil_append]
  refine ⟨by rw [hmain], by rw [hmain]; simp [hsl], by rw [hmain], ?_⟩
  rw [hmain]
  simp only [addSelection, hchk1]

/-- Witness for C3: selecting ("Doc", "Part", "Edge1") twice from the initial
state. -/
theorem addSelection_idempotent_witness :
    (addSelection envW obsId 4 (some "Doc") (some "Part") (some "Edge1") 1 2 3 none true
        initState).1 = true ∧
    ((addSelection envW obsId 4 (some "Doc") (some "Part") (some "Edge1") 1 2 3 none true
        initState).2.1.SelList.map (fun e => (e.DocName, e.FeatName, e.SubName)))
      = [("Doc", "Part", "Edge1")] ∧
    (addSelection envW obsId 4 (some "Doc") (some "Part") (some "Edge1") 1 2 3 none true
        initState).2.2
      = blockTrace
          { msgType := .AddSelection, pDocName := "Doc", pObjectName := "Part",
            pSubName := "Edge1", pTypeName := objW.typeName, x := 1, y := 2, z := 3 } 1 ∧
    addSelection envW obsId 4 (some "Doc") (some "Part") (some "Edge1") 1 2 3 none true
        (addSelection envW obsId 4 (some "Doc") (some "Part") (some "Edge1") 1 2 3 none true
          initState).2.1
      = (false,
          (addSelection envW obsId 4 (some "Doc") (some "Part") (some "Edge1") 1 2 3 none true
            initState).2.1,
          []) :=
  addSelection_idempotent envW obsId 3 "Doc" "Part" "Edge1" 1 2 3 objW resEdge1
    initState (by decide) (by decide) (by decide) rfl rfl rfl (by decide) rfl (by decide)
    (fun ob hob => by
      simp only [obsId, List.mem_singleton] at hob
      subst hob
      exact fun m u => rfl)
    rfl rfl rfl rfl rfl rfl

/-! ### Return value computed after notification -/

/-- C10: whenever `addSelection` reaches the append path (the candidate
resolved, was not already selected, no gate is active), its return value is
the selected-check of the resolved triple against the selection list of the
state *after* all notification passes — so an observer that removes or clears
the entry reentrantly during notification makes the same call return false. -/
theorem addSelection_result_after_notify (env : Env) (obs : List Observer) (fuel : Nat)
    (pd po ps : Option String) (x y z : Int) (cps : Bool) (st : GState) (temp : SelObjT)
    (hchk : checkSelection env st.SelList pd po ps ResolveMode.NoResolve = some (false, temp))
    (hgate : st.ActiveGate = none) :
    (addSelection env obs fuel pd po ps x y z none cps st).1
      = isSelectedB env (addSelection env obs fuel pd po ps x y z none cps st).2.1.SelList
          temp.DocName temp.FeatName temp.SubName ResolveMode.OldStyleElement := by
  by_cases hld : st.logDisabled = 0 <;>
    simp [addSelection, hchk, hgate, hld]

/-- Witness for C10: with an observer that clears the selection on receiving
the `AddSelection` event, the call's result equals the after-notification
check — and is false. -/
theorem addSelection_result_after_notify_witness :
    (addSelection envW obsClear 5 (some "Doc") (some "Part") (some "Edge1") 0 0 0 none true
        initState).1
      = isSelectedB envW (addSelection envW obsClear 5 (some "Doc") (some "Part")
            (some "Edge1") 0 0 0 none true initState).2.1.SelList
          "Doc" "Part" "Edge1" ResolveMode.OldStyleElement ∧
    (addSelection envW obsClear 5 (some "Doc") (some "Part") (some "Edge1") 0 0 0 none true
        initState).1 = false :=
  ⟨addSelection_result_after_notify envW obsClear 5 (some "Doc") (some "Part") (some "Edge1")
      0 0 0 true initState (cleanSel "Doc" "Edge1" objW resEdge1) (by decide) rfl,
    by decide⟩

end FreeCADSel
